import Mathlib

/-
Verification of the MARK provider / streaming-orchestration layer.

Shallow embedding of:
  src/mark_cli/providers/base.py    (Message, UsageStats, AIResponse, AIProvider)
  src/mark_cli/providers/groq.py    (GroqProvider)
  src/mark_cli/providers/gemini.py  (GeminiProvider)
  src/mark_cli/ui/interface.py      (MarkInterface.stream_ai_message)
  src/mark_cli/main.py              (MarkApp._handle_kleos_mode, MarkApp._send_to_ai)

Python `Optional[T]` is `Option T`; Python string truthiness (`if s:`) is
`optTruthy`; a raised Python exception is an `Except`/`Option PyError` value.
Backend I/O (the network response) is passed in as explicit data, so every
function is a pure state transformer on the provider state.
-/

namespace Mark

/-- base.py `Message` dataclass: role ("user" / "assistant"), content, timestamp. -/
structure Message where
  role : String
  content : String
  timestamp : Option String := none
deriving DecidableEq

/-- base.py `UsageStats` dataclass, all fields defaulted as in the source. -/
structure UsageStats where
  tokens_input : Nat := 0
  tokens_output : Nat := 0
  tokens_total : Nat := 0
  requests_count : Nat := 0
  rate_limit_remaining : Option Nat := none
  rate_limit_reset : Option String := none
deriving DecidableEq

/-- base.py `AIResponse` dataclass (the opaque `raw_response` payload is not
modelled; no claim inspects it). -/
structure AIResponse where
  content : String
  model : String
  usage : UsageStats
  finish_reason : Option String := none
deriving DecidableEq

/-- base.py `AIProvider.update_session_usage` (lines 125-132): token fields and
the request counter are added onto; the two rate-limit fields are overwritten. -/
def update_session_usage (s u : UsageStats) : UsageStats :=
  { tokens_input := s.tokens_input + u.tokens_input
    tokens_output := s.tokens_output + u.tokens_output
    tokens_total := s.tokens_total + u.tokens_total
    requests_count := s.requests_count + 1
    rate_limit_remaining := u.rate_limit_remaining
    rate_limit_reset := u.rate_limit_reset }

/-- base.py `AIProvider.reset_session_usage`: replaces the accumulator with a
fresh `UsageStats()`. -/
def reset_session_usage : UsageStats := {}

/-- Python truthiness of an `Optional[str]`: `None` and `""` are falsy. -/
def optTruthy : Option String → Bool
  | none => false
  | some s => s ≠ ""

/-- pat is a leading segment of s (character lists). -/
def charsStart : List Char → List Char → Bool
  | [], _ => true
  | _ :: _, [] => false
  | p :: ps, c :: cs => p = c && charsStart ps cs

/-- s contains pat as a contiguous segment (Python `pat in s`). -/
def charsHas : List Char → List Char → Bool
  | pat, [] => pat.isEmpty
  | pat, c :: cs => charsStart pat (c :: cs) || charsHas pat cs

/-- Python `pat in s` on strings. -/
def strContains (s pat : String) : Bool :=
  charsHas pat.data s.data

/-- Python `str.lower()` (ASCII case mapping; every input the claims use is
ASCII-cased). -/
def lowerStr (s : String) : String :=
  List.asString (s.data.map Char.toLower)

/-- One entry of an OpenAI-style chat `messages` list (`{"role": ..., "content": ...}`). -/
structure ChatMsg where
  role : String
  content : String
deriving DecidableEq

/-- groq.py message-list construction, identical in `send_message` (lines 70-97)
and `stream_message` (lines 155-178): optional system prompt, memory block
appended to (or inserted as) the system message, history, then the new user
message. -/
def groq_build_messages (message : String) (context : List Message)
    (system_prompt memories : Option String) : List ChatMsg :=
  let msgs : List ChatMsg :=
    if optTruthy system_prompt then [⟨"system", system_prompt.getD ""⟩] else []
  let msgs :=
    if optTruthy memories then
      let memory_content :=
        "--- MEMORY CONTEXT ---\n<MEMORIES>\n" ++ memories.getD "" ++
        "\n</MEMORIES>\n----------------------"
      match msgs with
      | first :: rest =>
        if first.role = "system" then
          { first with content := first.content ++ "\n\n" ++ memory_content } :: rest
        else
          ⟨"system", memory_content⟩ :: first :: rest
      | [] => [⟨"system", memory_content⟩]
    else msgs
  let msgs := msgs ++ context.map (fun msg =>
    ⟨if msg.role = "user" then "user" else "assistant", msg.content⟩)
  msgs ++ [⟨"user", message⟩]

/-- Mutable state of a `GroqProvider` instance: current model and the session
usage accumulator inherited from `AIProvider`. -/
structure GroqState where
  model : String
  session_usage : UsageStats := {}
deriving DecidableEq

/-- First element of `response.choices` for a non-streaming Groq call. -/
structure GroqChoice where
  content : String
  finish_reason : Option String
deriving DecidableEq

/-- `response.usage` of a non-streaming Groq call. -/
structure GroqUsage where
  prompt_tokens : Nat
  completion_tokens : Nat
  total_tokens : Nat
deriving DecidableEq

/-- Backend payload of a completed non-streaming Groq call; `choice` is
`none` when `response.choices` is empty, `usage` is `none` when the response
carries no usage attribute. -/
structure GroqBackendResponse where
  choice : Option GroqChoice
  usage : Option GroqUsage
deriving DecidableEq

/-- Per-call `UsageStats` extracted by groq.py `send_message` (lines 115-119). -/
def groq_extract_usage (response : GroqBackendResponse) : UsageStats :=
  match response.usage with
  | some u => { tokens_input := u.prompt_tokens
                tokens_output := u.completion_tokens
                tokens_total := u.total_tokens }
  | none => {}

/-- groq.py `send_message` success path (lines 60-135): builds the message
list, extracts content / usage / finish reason from the backend response,
updates the session accumulator exactly once, and returns the `AIResponse`
together with the new provider state. -/
def groq_send_message (st : GroqState) (message : String) (context : List Message)
    (system_prompt memories : Option String) (response : GroqBackendResponse) :
    List ChatMsg × AIResponse × GroqState :=
  let messages := groq_build_messages message context system_prompt memories
  let content := match response.choice with
    | some c => c.content
    | none => ""
  let usage := groq_extract_usage response
  let st' := { st with session_usage := update_session_usage st.session_usage usage }
  let finish_reason := match response.choice with
    | some c => c.finish_reason
    | none => none
  (messages, ⟨content, st.model, usage, finish_reason⟩, st')

/-- One streamed Groq chunk: `delta` is `none` when `chunk.choices` is empty,
`some none` when `delta.content is None`, `some (some s)` when text arrived. -/
structure GroqStreamChunk where
  delta : Option (Option String)
deriving DecidableEq

/-- groq.py `stream_message` run to normal completion (lines 147-198): builds
the message list, yields every non-None delta content, and — faithful to the
source — never touches the session usage accumulator. -/
def groq_stream_message (st : GroqState) (message : String) (context : List Message)
    (system_prompt memories : Option String) (chunks : List GroqStreamChunk) :
    List ChatMsg × List String × GroqState :=
  let messages := groq_build_messages message context system_prompt memories
  let fragments := chunks.filterMap (fun c =>
    match c.delta with
    | some (some s) => some s
    | _ => none)
  (messages, fragments, st)

/-- A raised Python exception, by class and message. -/
inductive PyError where
  | valueError : String → PyError
  | runtimeError : String → PyError
deriving DecidableEq

/-- Mutable state of a `GeminiProvider` instance: current model, whether
`self._chat` is non-None, and the session usage accumulator. -/
structure GeminiState where
  model : String
  chat : Bool := false
  session_usage : UsageStats := {}
deriving DecidableEq

/-- One `types.Content` entry of the history handed to the Gemini SDK (its
single text part inlined). -/
structure GContent where
  role : String
  text : String
deriving DecidableEq

/-- gemini.py `is_gemma = "gemma" in self.model.lower()`. -/
def gemini_is_gemma (model : String) : Bool :=
  strContains (lowerStr model) "gemma"

/-- gemini.py history construction, identical in `send_message` (lines 91-98)
and `stream_message` (lines 204-211): roles are mapped to user/model, and for
Gemma variants the system prompt is spliced into the first user turn. -/
def gemini_history (is_gemma : Bool) (system_prompt : Option String)
    (context : List Message) : List GContent :=
  context.enum.map (fun p =>
    let role := if p.2.role = "user" then "user" else "model"
    let text :=
      if p.1 = 0 && is_gemma && optTruthy system_prompt && role = "user" then
        system_prompt.getD "" ++ "\n\n" ++ p.2.content
      else p.2.content
    ⟨role, text⟩)

/-- gemini.py memory block wrapper (lines 117-121 and 227-231). -/
def gemini_memory_block (memories : String) : String :=
  "--- MEMORY CONTEXT (TRANSLATE IF NEEDED) ---\n<MEMORIES>\n" ++ memories ++
  "\n</MEMORIES>\n------------------------------------------\n\n"

/-- gemini.py outgoing user-message construction, identical in `send_message`
(lines 110-128) and `stream_message` (lines 220-237): the system prompt is
prepended only for a Gemma model on a fresh chat with empty history
(`should_inject_system`), and an optional memory block precedes the message. -/
def gemini_user_message (is_gemma chatExists historyEmpty : Bool)
    (message : String) (system_prompt memories : Option String) : String :=
  let should_inject_system :=
    is_gemma && optTruthy system_prompt && (!chatExists && historyEmpty)
  if optTruthy memories then
    let memory_block := gemini_memory_block (memories.getD "")
    if should_inject_system then
      system_prompt.getD "" ++ "\n\n" ++ memory_block ++ message
    else
      memory_block ++ message
  else if should_inject_system then
    system_prompt.getD "" ++ "\n\n" ++ message
  else message

/-- The outgoing Gemini request as observable from the constructed SDK call:
history, `GenerateContentConfig.system_instruction`, and the user message
actually sent. -/
structure GeminiRequest where
  history : List GContent
  system_instruction : Option String
  user_message : String
deriving DecidableEq

/-- Full request construction shared by gemini.py `send_message` and
`stream_message`: `system_instruction` is dropped for Gemma variants
(lines 103-108 / 213-218). -/
def gemini_build_request (st : GeminiState) (message : String)
    (context : List Message) (system_prompt memories : Option String) :
    GeminiRequest :=
  let is_gemma := gemini_is_gemma st.model
  let history := gemini_history is_gemma system_prompt context
  { history := history
    system_instruction :=
      if optTruthy system_prompt && !is_gemma then system_prompt else none
    user_message :=
      gemini_user_message is_gemma st.chat history.isEmpty message
        system_prompt memories }

/-- `response.usage_metadata` of a Gemini call; each token count may be None
(`or 0` in the source). -/
structure GeminiUsageMeta where
  prompt_token_count : Option Nat
  candidates_token_count : Option Nat
  total_token_count : Option Nat
deriving DecidableEq

/-- gemini.py usage extraction (`send_message` lines 142-147, `stream_message`
lines 255-261). -/
def gemini_usage_of_meta (meta : GeminiUsageMeta) : UsageStats :=
  { tokens_input := meta.prompt_token_count.getD 0
    tokens_output := meta.candidates_token_count.getD 0
    tokens_total := meta.total_token_count.getD 0 }

/-- First candidate of a Gemini response: `text` is `some` when
`candidate.content and candidate.content.parts` holds, and `finish_reason` is
the `str(...)` of the candidate's finish reason. -/
structure GeminiCandidate where
  text : Option String
  finish_reason : String
deriving DecidableEq

/-- Backend outcome of `self._chat.send_message(user_message)`: either a
response object, or an exception whose message is classified by the adapter.
The chat-session object is created before this point (lines 130-136), so on
either outcome `self._chat` is non-None afterwards. -/
inductive GeminiOutcome where
  | success (usage_metadata : Option GeminiUsageMeta) (candidate : Option GeminiCandidate)
  | sendError (msg : String)
deriving DecidableEq

/-- gemini.py `send_message` (lines 65-188) as a state transformer: on success
it updates the session accumulator once and returns the `AIResponse`; on an
exception it classifies the message — invalid key, rate limit, SAFETY
(returned as a normal blocked `AIResponse` with zero usage, line 180-186), or
a wrapped unknown error — and the accumulator is never touched on the error
path. -/
def gemini_send_message (st : GeminiState) (message : String)
    (context : List Message) (system_prompt memories : Option String)
    (outcome : GeminiOutcome) :
    GeminiRequest × Except PyError AIResponse × GeminiState :=
  let request := gemini_build_request st message context system_prompt memories
  let st' : GeminiState := { st with chat := true }
  (request, match outcome with
  | .success meta candidate =>
    let usage := match meta with
      | some m => gemini_usage_of_meta m
      | none => {}
    let stU := { st' with session_usage := update_session_usage st'.session_usage usage }
    let content := match candidate with
      | some c => c.text.getD ""
      | none => ""
    let finish_reason := match candidate with
      | some c => some c.finish_reason
      | none => none
    (.ok ⟨content, st.model, usage, finish_reason⟩, stU)
  | .sendError msg =>
    if strContains msg "API_KEY_INVALID" || strContains msg "401" then
      (.error (.valueError "Invalid API key. Please check your Gemini API key."), st')
    else if strContains msg "RATE_LIMIT" || strContains msg "429" then
      (.error (.runtimeError "Rate limit exceeded. Please wait and try again."), st')
    else if strContains msg "SAFETY" then
      (.ok ⟨"⚠️ The response was blocked for safety reasons.", st.model, {}, some "SAFETY"⟩, st')
    else
      (.error (.runtimeError ("Gemini Error: " ++ msg)), st'))

/-- gemini.py `stream_message` exception classification (lines 264-271):
unlike `send_message`, there is no SAFETY branch, so a policy-refusal message
falls into the final wrap-and-raise case. -/
def gemini_stream_classify (msg : String) : PyError :=
  if strContains msg "API_KEY_INVALID" || strContains msg "401" then
    .valueError "Invalid API key."
  else if strContains msg "RATE_LIMIT" || strContains msg "429" then
    .runtimeError "Rate limit exceeded."
  else
    .runtimeError ("Gemini Streaming Error: " ++ msg)

/-- One event of the Gemini backend stream: a chunk (optional text, optional
usage metadata) or an exception raised mid-iteration. -/
inductive GeminiStreamEvent where
  | chunk (text : Option String) (usage_metadata : Option GeminiUsageMeta)
  | raise (msg : String)
deriving DecidableEq

/-- Chunk loop of gemini.py `stream_message` (lines 250-262): yields every
truthy `chunk.text`, folds every usage-metadata-bearing chunk into the session
accumulator, and stops with a classified error when the backend raises. -/
def gemini_stream_loop (st : GeminiState) :
    List GeminiStreamEvent → List String × Option PyError × GeminiState
  | [] => ([], none, st)
  | .raise msg :: _ => ([], some (gemini_stream_classify msg), st)
  | .chunk text meta :: rest =>
    let st' := match meta with
      | some m =>
        { st with session_usage := update_session_usage st.session_usage (gemini_usage_of_meta m) }
      | none => st
    let r := gemini_stream_loop st' rest
    (match text with
     | some s => if s ≠ "" then s :: r.1 else r.1
     | none => r.1,
     r.2)

/-- gemini.py `stream_message` (lines 190-271) as a state transformer: the
chat session is (re)created before iteration (lines 239-245), then the chunk
loop runs; the result is the yielded fragments, an optional raised error, and
the final provider state. -/
def gemini_stream_message (st : GeminiState) (message : String)
    (context : List Message) (system_prompt memories : Option String)
    (events : List GeminiStreamEvent) :
    GeminiRequest × List String × Option PyError × GeminiState :=
  (gemini_build_request st message context system_prompt memories,
   gemini_stream_loop { st with chat := true } events)

/-- One pull from the provider's async generator inside
`MarkInterface.stream_ai_message`: either a text fragment was yielded or the
generator raised. -/
inductive StreamEvent where
  | frag : String → StreamEvent
  | err : StreamEvent
deriving DecidableEq

/-- The cancellation event of interface.py, abstracted over wall-clock time:
`cancelFrom = some t` means the event is set by the time of the loop-body
check of the t-th pulled fragment (0-based) and stays set; `none` means it is
never set. Set-ness is monotone by construction. -/
def cancelObserved (cancelFrom : Option Nat) (i : Nat) : Bool :=
  match cancelFrom with
  | some t => decide (t ≤ i)
  | none => false

/-- Observable outcome of one `stream_ai_message` run: the string the function
returns (`full_content`, line 228), the text of the single final sink commit
(line 225, always the same accumulated buffer), and how many pulls were made
on the fragment sequence. -/
structure StreamRun where
  text : String
  finalCommit : String
  pulls : Nat
deriving DecidableEq

/-- The `async for` loop of interface.py `stream_ai_message` (lines 177-220):
each iteration first pulls from the generator (a raise is swallowed by the
bare `except Exception: pass`), then checks the cancellation event — if set it
appends the stopped marker and breaks, otherwise it accumulates the fragment.
Returns the accumulated buffer and the number of pulls made. -/
def stream_loop (cancelFrom : Option Nat) :
    Nat → String → List StreamEvent → String × Nat
  | i, acc, [] => (acc, i)
  | i, acc, .err :: _ => (acc, i + 1)
  | i, acc, .frag s :: rest =>
    if cancelObserved cancelFrom i then
      (acc ++ "\n\n*[Response stopped]*", i + 1)
    else
      stream_loop cancelFrom (i + 1) (acc ++ s) rest

/-- interface.py `MarkInterface.stream_ai_message` (lines 139-228): runs the
loop, performs one final sink commit with the accumulated text, and returns
that text — a single string; the function computes no time-to-first-token. -/
def stream_ai_message (cancelFrom : Option Nat) (events : List StreamEvent) :
    StreamRun :=
  let r := stream_loop cancelFrom 0 "" events
  { text := r.1, finalCommit := r.1, pulls := r.2 }

/-- Python tuple unpacking `a, b = s` applied to a string value, as main.py
does with the result of `stream_ai_message` (lines 678, 712, 754, 849): a
string iterates over its characters, so unpacking succeeds only when it has
exactly two; otherwise a ValueError is raised (`none` here). -/
def pyUnpack2 (s : String) : Option (Char × Char) :=
  match s.data with
  | [a, b] => some (a, b)
  | _ => none

/-- Spec-side concatenation of a fragment list (the expected full text). -/
def concatStrs : List String → String
  | [] => ""
  | s :: rest => s ++ concatStrs rest

/-- Record persisted by `db.add_conversation` as called from main.py. -/
structure ConvRecord where
  provider : String
  model : String
  user_message : String
  ai_response : String
  tokens_used : Nat
deriving DecidableEq

/-- main.py `_handle_kleos_mode` save step (lines 767-779): when the final
streamed content is truthy, exactly one user/assistant pair is appended to
`self.context` with the original prompt as the user turn, and — when
auto-save is on — a conversation record is persisted whose user text is the
original prompt prefixed with `"[KLEOS] "`. -/
def kleos_save_context (ctx : List Message) (provider model : String)
    (original_prompt full_content : String) (auto_save : Bool) :
    List Message × Option ConvRecord :=
  if full_content ≠ "" then
    (ctx ++ [⟨"user", original_prompt, none⟩, ⟨"assistant", full_content, none⟩],
     if auto_save then
       some ⟨provider, model, "[KLEOS] " ++ original_prompt, full_content, 0⟩
     else none)
  else (ctx, none)

/-- main.py `_send_to_ai` context update (lines 888-895): when the streamed
content is truthy, the user/assistant pair is appended and the context is
trimmed to its last `max_context_messages * 2` entries when longer. The
source trims with `self.context[-max_context:]`, and Python `lst[-0:]` is the
whole list, so a zero maximum performs no trimming. -/
def send_to_ai_update_context (ctx : List Message)
    (message full_content : String) (max_context_messages : Nat) :
    List Message :=
  if full_content ≠ "" then
    let ctx' := ctx ++ [⟨"user", message, none⟩, ⟨"assistant", full_content, none⟩]
    let max_context := max_context_messages * 2
    if ctx'.length > max_context then
      if max_context = 0 then ctx'
      else ctx'.drop (ctx'.length - max_context)
    else ctx'
  else ctx

/-- Word characters of the Python regex `\w` restricted to the alphabets the
stop-word lists use: ASCII alphanumerics, underscore, and the Latin-1 /
Latin-Extended-A letter range (the multiplication and division signs in that
range excluded). -/
def isWordChar (c : Char) : Bool :=
  c.isAlphanum || c = '_' ||
    (0xC0 ≤ c.toNat && c.toNat ≤ 0x17F && c.toNat ≠ 0xD7 && c.toNat ≠ 0xF7)

/-- Maximal runs of word characters in a character list; `cur` is the
(reversed) run currently being read. -/
def word_runs (cur : List Char) : List Char → List (List Char)
  | [] => if cur.isEmpty then [] else [cur.reverse]
  | c :: cs =>
    if isWordChar c then word_runs (c :: cur) cs
    else if cur.isEmpty then word_runs [] cs
    else cur.reverse :: word_runs [] cs

/-- main.py `re.findall(r'\b\w{2,}\b', text)` (line 631): each `\b`-delimited
match is a maximal word-character run, and only runs of length at least 2
match. -/
def word_tokens (s : String) : List String :=
  ((word_runs [] s.data).filter (fun w => 2 ≤ w.length)).map List.asString

/-- main.py `detect_lang` Italian stop-word set (lines 609-613). The two
non-ASCII entries are embedded byte-for-byte as they stand in the source file
(the file stores them mojibake-encoded). -/
def lang_keywords_it : List String :=
  ["il", "lo", "la", "gli", "le", "di", "da", "in", "con", "su", "per", "tra",
   "fra", "che", "non", "sono", "√®", "sono", "ho", "ha", "abbiamo", "hanno",
   "come", "perch√©", "quando", "chi", "quale", "questo", "quello", "filtro",
   "olio", "macchina", "casa", "lavoro", "fare", "dire", "potere", "volere",
   "un", "una", "uno"]

/-- main.py `detect_lang` Spanish stop-word set (lines 614-618). -/
def lang_keywords_es : List String :=
  ["el", "la", "los", "las", "de", "en", "con", "por", "para", "que", "no",
   "son", "es", "tengo", "tiene", "tenemos", "tienen", "como", "porque",
   "cuando", "quien", "cual", "este", "ese", "hacer", "decir", "poder",
   "querer", "un", "una", "uno"]

/-- main.py `detect_lang` French stop-word set (lines 619-623). -/
def lang_keywords_fr : List String :=
  ["le", "la", "les", "de", "en", "avec", "par", "pour", "est", "que", "ne",
   "sont", "ai", "as", "a", "avons", "avez", "ont", "comment", "pourquoi",
   "quand", "qui", "quel", "ce", "cette", "faire", "dire", "pouvoir",
   "vouloir", "un", "une"]

/-- main.py `detect_lang` German stop-word set (lines 624-628), with the
source file's mojibake spelling of its one non-ASCII entry. -/
def lang_keywords_de : List String :=
  ["der", "die", "das", "den", "dem", "des", "ein", "eine", "und", "ist",
   "nicht", "habe", "hat", "haben", "wie", "warum", "wann", "wer", "welcher",
   "dieser", "jener", "machen", "sagen", "k√∂nnen", "wollen"]

/-- `len(words.intersection(kws))`: number of distinct extracted words that
appear in the keyword set. -/
def lang_score (words : List String) (kws : List String) : Nat :=
  (words.filter (fun w => kws.contains w)).length

/-- main.py `detect_lang` (lines 607-638): tokenizes the lowercased text,
scores each candidate language, and returns the first language of the fixed
order it, es, fr, de attaining the maximal score (Python `max` keeps the
first maximum) when that score is positive, else "en". -/
def detect_lang (text : String) : String :=
  let words := (word_tokens (lowerStr text)).dedup
  let scores : List (String × Nat) :=
    [("it", lang_score words lang_keywords_it),
     ("es", lang_score words lang_keywords_es),
     ("fr", lang_score words lang_keywords_fr),
     ("de", lang_score words lang_keywords_de)]
  match scores with
  | [] => "en"
  | s0 :: rest =>
    let best := rest.foldl (fun b p => if p.2 > b.2 then p else b) s0
    if best.2 > 0 then best.1 else "en"

/-- Arguments and backend payload of one completed non-streaming Groq call. -/
structure GroqCall where
  message : String
  context : List Message
  system_prompt : Option String := none
  memories : Option String := none
  response : GroqBackendResponse
deriving DecidableEq

/-- A sequence of completed non-streaming Groq calls against one provider
instance, threading the provider state. -/
def groq_run_sends : GroqState → List GroqCall → GroqState
  | st, [] => st
  | st, c :: rest =>
    groq_run_sends
      (groq_send_message st c.message c.context c.system_prompt c.memories
        c.response).2.2 rest

/-- groq.py `send_message` exception classification (lines 137-145): invalid
key and rate limit are recognized (the latter two checks on the lowercased
message), everything else — a policy refusal included — is wrapped and
re-raised; no ContentBlocked branch exists. -/
def groq_send_classify (msg : String) : PyError :=
  if strContains msg "401" || strContains (lowerStr msg) "invalid_api_key" then
    .valueError "Invalid API key. Please check your Groq API key."
  else if strContains msg "429" || strContains (lowerStr msg) "rate_limit" then
    .runtimeError "Rate limit exceeded. Please wait and try again."
  else .runtimeError ("Groq Error: " ++ msg)

/-- groq.py `stream_message` exception classification (lines 200-207), same
shape as the non-streaming one; no ContentBlocked branch exists. -/
def groq_stream_classify (msg : String) : PyError :=
  if strContains msg "401" || strContains (lowerStr msg) "invalid_api_key" then
    .valueError "Invalid API key."
  else if strContains msg "429" || strContains (lowerStr msg) "rate_limit" then
    .runtimeError "Rate limit exceeded."
  else .runtimeError ("Groq Streaming Error: " ++ msg)

/-- `_build_messages` of ollama.py (lines 63-102) and local_gguf.py (lines
74-113) — the two sources carry the identical helper: the memory block is
appended to the system prompt (or becomes the system message when no system
prompt is given), then history, then the new user message. -/
def local_build_messages (message : String) (context : List Message)
    (system_prompt memories : Option String) : List ChatMsg :=
  let memory_content :=
    "--- MEMORY CONTEXT ---\n<MEMORIES>\n" ++ memories.getD "" ++
    "\n</MEMORIES>\n----------------------"
  let msgs : List ChatMsg :=
    if optTruthy system_prompt then
      [⟨"system", system_prompt.getD "" ++
          (if optTruthy memories then "\n\n" ++ memory_content else "")⟩]
    else if optTruthy memories then [⟨"system", memory_content⟩]
    else []
  let msgs := msgs ++ context.map (fun msg =>
    ⟨if msg.role = "user" then "user" else "assistant", msg.content⟩)
  msgs ++ [⟨"user", message⟩]

/-- Mutable state of an `OllamaProvider` instance. -/
structure OllamaState where
  model : String
  session_usage : UsageStats := {}
deriving DecidableEq

/-- Parsed JSON body of a completed non-streaming Ollama `/api/chat` call:
message content and the optional token counters; `eval_count = none` models a
body without the "eval_count" key. -/
structure OllamaChatData where
  content : String
  eval_count : Option Nat
  prompt_eval_count : Option Nat
deriving DecidableEq

/-- ollama.py `send_message` usage extraction (lines 131-135): populated only
when "eval_count" is present; `tokens_total` is computed as input + output. -/
def ollama_extract_usage (data : OllamaChatData) : UsageStats :=
  match data.eval_count with
  | some ev =>
    { tokens_input := data.prompt_eval_count.getD 0
      tokens_output := ev
      tokens_total := data.prompt_eval_count.getD 0 + ev }
  | none => {}

/-- ollama.py `send_message` success path (lines 104-144): builds the message
list, extracts content and usage, updates the session accumulator exactly
once, and reports finish reason "stop". -/
def ollama_send_message (st : OllamaState) (message : String)
    (context : List Message) (system_prompt memories : Option String)
    (data : OllamaChatData) : List ChatMsg × AIResponse × OllamaState :=
  let messages := local_build_messages message context system_prompt memories
  let usage := ollama_extract_usage data
  (messages, ⟨data.content, st.model, usage, some "stop"⟩,
   { st with session_usage := update_session_usage st.session_usage usage })

/-- One line of the Ollama streaming response: `none` when the line is blank
or fails JSON decoding (silently skipped), `some s` for the parsed message
content (yielded only when non-empty). -/
structure OllamaStreamLine where
  content : Option String
deriving DecidableEq

/-- ollama.py `stream_message` run to normal completion (lines 154-187):
yields each parsed line's truthy content and — faithful to the source —
never touches the session usage accumulator. -/
def ollama_stream_message (st : OllamaState) (message : String)
    (context : List Message) (system_prompt memories : Option String)
    (body : List OllamaStreamLine) : List ChatMsg × List String × OllamaState :=
  (local_build_messages message context system_prompt memories,
   body.filterMap (fun l =>
     match l.content with
     | some s => if s ≠ "" then some s else none
     | none => none),
   st)

/-- ollama.py error wrapping in `send_message` (lines 146-152): a connection
failure raises the cannot-connect RuntimeError, every other exception —
including any policy refusal — is wrapped as "Ollama Error: ..."; no
ContentBlocked branch exists. -/
def ollama_error_wrap (connectError : Bool) (msg : String) : PyError :=
  if connectError then
    .runtimeError "Cannot connect to Ollama. Make sure Ollama is running (ollama serve)."
  else .runtimeError ("Ollama Error: " ++ msg)

/-- Mutable state of a `LocalGGUFProvider` instance (`model` holds the .gguf
file path). -/
structure GGUFState where
  model_path : String
  session_usage : UsageStats := {}
deriving DecidableEq

/-- pathlib `Path(p).name`: the final component of the path. -/
def path_name (p : String) : String :=
  (p.splitOn "/").getLastD p

/-- `response["usage"]` of a llama-cpp chat completion. -/
structure GGUFUsage where
  prompt_tokens : Nat
  completion_tokens : Nat
  total_tokens : Nat
deriving DecidableEq

/-- Completed llama-cpp chat completion: first choice's message content and
finish reason, plus the optional usage entry. -/
structure GGUFResponse where
  content : String
  usage : Option GGUFUsage
  finish_reason : Option String
deriving DecidableEq

/-- local_gguf.py `send_message` usage extraction (lines 138-142). -/
def gguf_extract_usage (response : GGUFResponse) : UsageStats :=
  match response.usage with
  | some u => { tokens_input := u.prompt_tokens
                tokens_output := u.completion_tokens
                tokens_total := u.total_tokens }
  | none => {}

/-- local_gguf.py `send_message` success path (lines 115-151): builds the
message list, extracts content / usage / finish reason, updates the session
accumulator exactly once; the response's model field is the file name of the
model path. -/
def gguf_send_message (st : GGUFState) (message : String)
    (context : List Message) (system_prompt memories : Option String)
    (response : GGUFResponse) : List ChatMsg × AIResponse × GGUFState :=
  let messages := local_build_messages message context system_prompt memories
  let usage := gguf_extract_usage response
  (messages,
   ⟨response.content, path_name st.model_path, usage, response.finish_reason⟩,
   { st with session_usage := update_session_usage st.session_usage usage })

/-- One streamed llama-cpp chunk: the delta's "content" entry when present
(yielded only when truthy). -/
structure GGUFStreamChunk where
  content : Option String
deriving DecidableEq

/-- local_gguf.py `stream_message` run to normal completion (lines 156-182):
yields each truthy delta content and — faithful to the source — never
touches the session usage accumulator. -/
def gguf_stream_message (st : GGUFState) (message : String)
    (context : List Message) (system_prompt memories : Option String)
    (chunks : List GGUFStreamChunk) : List ChatMsg × List String × GGUFState :=
  (local_build_messages message context system_prompt memories,
   chunks.filterMap (fun c =>
     match c.content with
     | some s => if s ≠ "" then some s else none
     | none => none),
   st)

/-- local_gguf.py error wrapping in `send_message` (lines 153-154): every
exception is wrapped as "Local Model Error: ..."; no ContentBlocked branch
exists. -/
def gguf_error_wrap (msg : String) : PyError :=
  .runtimeError ("Local Model Error: " ++ msg)

/-- The usage-metadata payloads a Gemini stream delivers before terminating
(normally or by an exception that discards the remainder). -/
def gemini_stream_metas : List GeminiStreamEvent → List GeminiUsageMeta
  | [] => []
  | .raise _ :: _ => []
  | .chunk _ m :: rest =>
    match m with
    | some x => x :: gemini_stream_metas rest
    | none => gemini_stream_metas rest

end Mark

namespace Mark

lemma groq_run_sends_cons (st : GroqState) (c : GroqCall) (rest : List GroqCall) :
    groq_run_sends st (c :: rest)
      = groq_run_sends
          { st with session_usage :=
              update_session_usage st.session_usage (groq_extract_usage c.response) }
          rest := rfl

lemma groq_run_sends_spec (calls : List GroqCall) :
    ∀ st : GroqState,
      (groq_run_sends st calls).session_usage.requests_count
          = st.session_usage.requests_count + calls.length ∧
      (groq_run_sends st calls).session_usage.tokens_input
          = st.session_usage.tokens_input
            + (calls.map (fun c => (groq_extract_usage c.response).tokens_input)).sum ∧
      (groq_run_sends st calls).session_usage.tokens_output
          = st.session_usage.tokens_output
            + (calls.map (fun c => (groq_extract_usage c.response).tokens_output)).sum ∧
      (groq_run_sends st calls).session_usage.tokens_total
          = st.session_usage.tokens_total
            + (calls.map (fun c => (groq_extract_usage c.response).tokens_total)).sum := by
  induction calls with
  | nil => intro st; simp [groq_run_sends]
  | cons c rest ih =>
    intro st
    rw [groq_run_sends_cons]
    obtain ⟨h1, h2, h3, h4⟩ := ih
      { st with session_usage :=
          update_session_usage st.session_usage (groq_extract_usage c.response) }
    refine ⟨?_, ?_, ?_, ?_⟩ <;>
      · simp only [h1, h2, h3, h4]
        simp only [update_session_usage, List.length_cons, List.map_cons,
          List.sum_cons]
        omega

/-- Claim C1, counterexample: one completed streaming call against a fresh
Groq provider instance delivers its fragments but leaves the session usage
accumulator untouched — `requests_count` is 0 after 1 completed call, not 1
as the claim requires. -/
theorem C1_counterexample :
    (groq_stream_message { model := "llama-3.3-70b-versatile" } "hi" [] none none
        [⟨some (some "Hel")⟩, ⟨some (some "lo")⟩]).2.1 = ["Hel", "lo"] ∧
    (groq_stream_message { model := "llama-3.3-70b-versatile" } "hi" [] none none
        [⟨some (some "Hel")⟩, ⟨some (some "lo")⟩]).2.2.session_usage.requests_count = 0 ∧
    ¬ (groq_stream_message { model := "llama-3.3-70b-versatile" } "hi" [] none none
        [⟨some (some "Hel")⟩, ⟨some (some "lo")⟩]).2.2.session_usage.requests_count = 1 := by
  decide

lemma gemini_stream_loop_usage (events : List GeminiStreamEvent) :
    ∀ st : GeminiState,
      (gemini_stream_loop st events).2.2.session_usage
        = (gemini_stream_metas events).foldl
            (fun u m => update_session_usage u (gemini_usage_of_meta m))
            st.session_usage := by
  induction events with
  | nil => intro st; rfl
  | cons e rest ih =>
    intro st
    cases e with
    | raise m => rfl
    | chunk t m =>
      cases m with
      | none =>
        simpa [gemini_stream_loop, gemini_stream_metas] using ih st
      | some x =>
        simpa [gemini_stream_loop, gemini_stream_metas] using
          ih { st with session_usage :=
                update_session_usage st.session_usage (gemini_usage_of_meta x) }

/-- Claim C1, amended: non-streaming calls update the session accumulator
exactly once per completed call — shown for arbitrary sequences of N Groq
`send_message` calls (requests_count = N and each token field is the per-call
sum) and per call for the Ollama, local-GGUF and Gemini adapters — but
streaming calls do not: completed `stream_message` calls on the Groq, Ollama
and local-GGUF adapters leave the provider state (hence the accumulator)
entirely unchanged, while the Gemini adapter folds in one update per
usage-metadata-bearing fragment, which is exactly once only when exactly one
fragment (commonly the terminal one) carries usage metadata. -/
theorem C1_amended_usage_accumulation :
    (∀ (m : String) (calls : List GroqCall),
      (groq_run_sends { model := m } calls).session_usage.requests_count
          = calls.length ∧
      (groq_run_sends { model := m } calls).session_usage.tokens_input
          = (calls.map (fun c => (groq_extract_usage c.response).tokens_input)).sum ∧
      (groq_run_sends { model := m } calls).session_usage.tokens_output
          = (calls.map (fun c => (groq_extract_usage c.response).tokens_output)).sum ∧
      (groq_run_sends { model := m } calls).session_usage.tokens_total
          = (calls.map (fun c => (groq_extract_usage c.response).tokens_total)).sum) ∧
    (∀ (st : GroqState) (message : String) (context : List Message)
       (sp mem : Option String) (chunks : List GroqStreamChunk),
      (groq_stream_message st message context sp mem chunks).2.2 = st) ∧
    (∀ (st : OllamaState) (message : String) (context : List Message)
       (sp mem : Option String) (body : List OllamaStreamLine),
      (ollama_stream_message st message context sp mem body).2.2 = st) ∧
    (∀ (st : GGUFState) (message : String) (context : List Message)
       (sp mem : Option String) (chunks : List GGUFStreamChunk),
      (gguf_stream_message st message context sp mem chunks).2.2 = st) ∧
    (∀ (st : OllamaState) (message : String) (context : List Message)
       (sp mem : Option String) (data : OllamaChatData),
      (ollama_send_message st message context sp mem data).2.2.session_usage
        = update_session_usage st.session_usage (ollama_extract_usage data)) ∧
    (∀ (st : GGUFState) (message : String) (context : List Message)
       (sp mem : Option String) (response : GGUFResponse),
      (gguf_send_message st message context sp mem response).2.2.session_usage
        = update_session_usage st.session_usage (gguf_extract_usage response)) ∧
    (∀ (st : GeminiState) (message : String) (context : List Message)
       (sp mem : Option String) (meta : Option GeminiUsageMeta)
       (candidate : Option GeminiCandidate),
      (gemini_send_message st message context sp mem
          (.success meta candidate)).2.2.session_usage
        = update_session_usage st.session_usage
            (match meta with
             | some m => gemini_usage_of_meta m
             | none => {})) ∧
    (∀ (st : GeminiState) (message : String) (context : List Message)
       (sp mem : Option String) (events : List GeminiStreamEvent),
      (gemini_stream_message st message context sp mem events).2.2.2.session_usage
        = (gemini_stream_metas events).foldl
            (fun u m => update_session_usage u (gemini_usage_of_meta m))
            st.session_usage) := by
  refine ⟨?_, fun _ _ _ _ _ _ => rfl, fun _ _ _ _ _ _ => rfl,
    fun _ _ _ _ _ _ => rfl, fun _ _ _ _ _ _ => rfl, fun _ _ _ _ _ _ => rfl,
    fun _ _ _ _ _ _ _ => rfl, ?_⟩
  · intro m calls
    obtain ⟨h1, h2, h3, h4⟩ := groq_run_sends_spec calls { model := m }
    exact ⟨by simpa using h1, by simpa using h2, by simpa using h3,
      by simpa using h4⟩
  · intro st message context sp mem events
    exact gemini_stream_loop_usage events { st with chat := true }

/-- Claim C2: consuming the fragment sequence ["Hel", "lo"] to normal
completion with no cancellation accumulates and commits the full text
"Hello", but `stream_ai_message` returns that bare string — not the pair
(full_text, time_to_first_token) the claim (and its callers in main.py, which
unpack two values and so raise ValueError on the 5-character result) expect —
and computes no time-to-first-token at all. -/
theorem C2_stream_returns_bare_string :
    (stream_ai_message none [.frag "Hel", .frag "lo"]).text = "Hello" ∧
    (stream_ai_message none [.frag "Hel", .frag "lo"]).finalCommit = "Hello" ∧
    pyUnpack2 (stream_ai_message none [.frag "Hel", .frag "lo"]).text = none := by
  decide

/-- Claim C3: when the cancellation signal becomes set after the first
fragment was processed and before the check on the second one, the committed
and returned text is exactly the first fragment followed by the stopped
marker, and consumption halts at the pull during which the signal was
observed — exactly 2 pulls are made, none afterwards, whatever else the
sequence held. -/
theorem C3_cancel_before_second_fragment (f1 f2 : String)
    (rest : List StreamEvent) :
    (stream_ai_message (some 1) (.frag f1 :: .frag f2 :: rest)).text
        = f1 ++ "\n\n*[Response stopped]*" ∧
    (stream_ai_message (some 1) (.frag f1 :: .frag f2 :: rest)).finalCommit
        = f1 ++ "\n\n*[Response stopped]*" ∧
    (stream_ai_message (some 1) (.frag f1 :: .frag f2 :: rest)).pulls = 2 :=
  ⟨rfl, rfl, rfl⟩

lemma stream_loop_swallow (rest : List StreamEvent) :
    ∀ (fs : List String) (i : Nat) (acc : String),
      stream_loop none i acc (fs.map StreamEvent.frag ++ StreamEvent.err :: rest)
        = (acc ++ concatStrs fs, i + (fs.length + 1)) := by
  intro fs
  induction fs with
  | nil =>
    intro i acc
    simp [stream_loop, concatStrs, String.append_empty]
  | cons f fs ih =>
    intro i acc
    simp only [List.map_cons, List.cons_append, stream_loop, cancelObserved,
      Bool.false_eq_true, if_false, concatStrs, List.append_eq, ih,
      String.append_assoc, Prod.mk.injEq, List.length_cons, true_and]
    omega

/-- Claim C4: an exception raised by the fragment generator after any number
of delivered fragments is swallowed by the orchestrator: consumption stops at
the raising pull, the single final sink commit carries exactly the text
accumulated before the failure, and `stream_ai_message` returns that text
normally (in this embedding it is a total function — there is no error
outcome to return). -/
theorem C4_exception_swallowed (fs : List String) (rest : List StreamEvent) :
    (stream_ai_message none (fs.map StreamEvent.frag ++ StreamEvent.err :: rest)).text
        = concatStrs fs ∧
    (stream_ai_message none (fs.map StreamEvent.frag ++ StreamEvent.err :: rest)).finalCommit
        = concatStrs fs ∧
    (stream_ai_message none (fs.map StreamEvent.frag ++ StreamEvent.err :: rest)).pulls
        = fs.length + 1 := by
  have h := stream_loop_swallow rest fs 0 ""
  refine ⟨?_, ?_, ?_⟩ <;> simp [stream_ai_message, h]

/-- Claim C5, counterexample: the same SAFETY-classified backend refusal that
`GeminiProvider.send_message` converts into a normal blocked `AIResponse` is
re-raised by `GeminiProvider.stream_message` as a RuntimeError, because its
exception handler has no SAFETY branch — so ContentBlocked is not propagated
as a response value on the streaming path. -/
theorem C5_counterexample :
    (gemini_send_message { model := "gemini-2.5-flash" } "hi" [] none none
        (.sendError "response blocked: SAFETY")).2.1
      = .ok ⟨"⚠️ The response was blocked for safety reasons.",
             "gemini-2.5-flash", {}, some "SAFETY"⟩ ∧
    (gemini_stream_message { model := "gemini-2.5-flash" } "hi" [] none none
        [.raise "response blocked: SAFETY"]).2.2.1
      = some (.runtimeError "Gemini Streaming Error: response blocked: SAFETY") :=
  ⟨rfl, rfl⟩

/-- Claim C5, amended: ContentBlocked is propagated as a normal response value
only by `GeminiProvider.send_message` (a blocked `AIResponse` with zero usage
and finish reason "SAFETY"); `GeminiProvider.stream_message` re-raises the
same SAFETY-classified backend error wrapped as a RuntimeError, since its
handler recognizes only invalid-key and rate-limit messages; and the Groq,
Ollama and local-GGUF adapters have no ContentBlocked mapping at all — their
classifiers re-raise every non-auth, non-rate-limit exception (a SAFETY
message included) as a wrapped RuntimeError. -/
theorem C5_amended_safety_propagation (st : GeminiState) (message : String)
    (context : List Message) (sp mem : Option String) (msg : String)
    (hS : strContains msg "SAFETY" = true)
    (h1 : strContains msg "API_KEY_INVALID" = false)
    (h2 : strContains msg "401" = false)
    (h3 : strContains msg "RATE_LIMIT" = false)
    (h4 : strContains msg "429" = false) :
    (gemini_send_message st message context sp mem (.sendError msg)).2.1
      = .ok ⟨"⚠️ The response was blocked for safety reasons.", st.model, {},
             some "SAFETY"⟩ ∧
    (gemini_stream_message st message context sp mem [.raise msg]).2.2.1
      = some (.runtimeError ("Gemini Streaming Error: " ++ msg)) ∧
    (∀ m2 : String,
      strContains m2 "401" = false →
      strContains (lowerStr m2) "invalid_api_key" = false →
      strContains m2 "429" = false →
      strContains (lowerStr m2) "rate_limit" = false →
      groq_send_classify m2 = .runtimeError ("Groq Error: " ++ m2) ∧
      groq_stream_classify m2 = .runtimeError ("Groq Streaming Error: " ++ m2)) ∧
    (∀ m2 : String,
      ollama_error_wrap true m2
        = .runtimeError
            "Cannot connect to Ollama. Make sure Ollama is running (ollama serve)." ∧
      ollama_error_wrap false m2 = .runtimeError ("Ollama Error: " ++ m2)) ∧
    (∀ m2 : String,
      gguf_error_wrap m2 = .runtimeError ("Local Model Error: " ++ m2)) := by
  refine ⟨?_, ?_, ?_, fun m2 => ⟨rfl, rfl⟩, fun m2 => rfl⟩
  · simp [gemini_send_message, hS, h1, h2, h3, h4]
  · simp [gemini_stream_message, gemini_stream_loop, gemini_stream_classify,
      hS, h1, h2, h3, h4]
  · intro m2 g1 g2 g3 g4
    constructor
    · simp [groq_send_classify, g1, g2, g3, g4]
    · simp [groq_stream_classify, g1, g2, g3, g4]

theorem C5_amended_witness :
    strContains "SAFETY" "SAFETY" = true ∧
    strContains "SAFETY" "API_KEY_INVALID" = false ∧
    strContains "SAFETY" "401" = false ∧
    strContains "SAFETY" "RATE_LIMIT" = false ∧
    strContains "SAFETY" "429" = false ∧
    strContains (lowerStr "SAFETY") "invalid_api_key" = false ∧
    strContains (lowerStr "SAFETY") "rate_limit" = false ∧
    ((gemini_send_message { model := "gemini-2.5-flash" } "hi" [] none none
        (.sendError "SAFETY")).2.1
      = .ok ⟨"⚠️ The response was blocked for safety reasons.",
             "gemini-2.5-flash", {}, some "SAFETY"⟩ ∧
     (gemini_stream_message { model := "gemini-2.5-flash" } "hi" [] none none
        [.raise "SAFETY"]).2.2.1
      = some (.runtimeError ("Gemini Streaming Error: " ++ "SAFETY")) ∧
     (groq_send_classify "SAFETY" = .runtimeError ("Groq Error: " ++ "SAFETY") ∧
      groq_stream_classify "SAFETY"
        = .runtimeError ("Groq Streaming Error: " ++ "SAFETY")) ∧
     (ollama_error_wrap true "SAFETY"
        = .runtimeError
            "Cannot connect to Ollama. Make sure Ollama is running (ollama serve)." ∧
      ollama_error_wrap false "SAFETY"
        = .runtimeError ("Ollama Error: " ++ "SAFETY")) ∧
     gguf_error_wrap "SAFETY" = .runtimeError ("Local Model Error: " ++ "SAFETY")) :=
  ⟨by decide, by decide, by decide, by decide, by decide, by decide, by decide,
   have h := C5_amended_safety_propagation { model := "gemini-2.5-flash" } "hi"
     [] none none "SAFETY" (by decide) (by decide) (by decide) (by decide)
     (by decide)
   ⟨h.1, h.2.1,
    h.2.2.1 "SAFETY" (by decide) (by decide) (by decide) (by decide),
    h.2.2.2.1 "SAFETY", h.2.2.2.2 "SAFETY"⟩⟩

/-- Claim C6, counterexample: the prompt "un" scores 1 for Italian, Spanish
and French alike — a tie between candidate languages — yet `detect_lang`
returns "it", the first language of its fixed iteration order, not the
baseline "en" the claim requires for ties. -/
theorem C6_counterexample :
    lang_score ((word_tokens (lowerStr "un")).dedup) lang_keywords_it = 1 ∧
    lang_score ((word_tokens (lowerStr "un")).dedup) lang_keywords_es = 1 ∧
    lang_score ((word_tokens (lowerStr "un")).dedup) lang_keywords_fr = 1 ∧
    detect_lang "un" = "it" ∧ detect_lang "un" ≠ "en" := by
  decide

/-- Claim C6, amended: language detection scores the prompt by counting
distinct word matches against the fixed stop-word list of each candidate
(it, es, fr, de); the Italian prompt yields "it"; zero matches everywhere
defaults to "en"; but a tie is resolved in favor of the earliest candidate in
the fixed order it, es, fr, de (shown in general for an all-equal positive
tie) rather than defaulting to "en". -/
theorem C6_amended_language_detection :
    detect_lang "ricorda che mi chiamo Marco" = "it" ∧
    detect_lang "zzz qqq" = "en" ∧
    ∀ (text : String) (s : Nat),
      lang_score ((word_tokens (lowerStr text)).dedup) lang_keywords_it = s →
      lang_score ((word_tokens (lowerStr text)).dedup) lang_keywords_es = s →
      lang_score ((word_tokens (lowerStr text)).dedup) lang_keywords_fr = s →
      lang_score ((word_tokens (lowerStr text)).dedup) lang_keywords_de = s →
      0 < s →
      detect_lang text = "it" := by
  refine ⟨by decide, by decide, ?_⟩
  intro text s h1 h2 h3 h4 hs
  simp [detect_lang, h1, h2, h3, h4, hs, lt_self_iff_false]

theorem C6_amended_witness :
    lang_score ((word_tokens (lowerStr "gli los avec und")).dedup) lang_keywords_it = 1 ∧
    lang_score ((word_tokens (lowerStr "gli los avec und")).dedup) lang_keywords_es = 1 ∧
    lang_score ((word_tokens (lowerStr "gli los avec und")).dedup) lang_keywords_fr = 1 ∧
    lang_score ((word_tokens (lowerStr "gli los avec und")).dedup) lang_keywords_de = 1 ∧
    0 < 1 ∧ detect_lang "gli los avec und" = "it" :=
  ⟨by decide, by decide, by decide, by decide, by decide,
   C6_amended_language_detection.2.2 "gli los avec und" 1 (by decide) (by decide)
     (by decide) (by decide) (by decide)⟩

/-- Claim C7, counterexample: for the original prompt "ciao" the Kleos save
step persists the user-turn text "[KLEOS] ciao", which differs from the
original prompt — the conversation-history user turn is the original prompt,
but the persisted user-turn text is not equal to it. -/
theorem C7_counterexample :
    (kleos_save_context [] "GOOGLE" "gemini-2.5-flash" "ciao" "ok" true).2
      = some ⟨"GOOGLE", "gemini-2.5-flash", "[KLEOS] ciao", "ok", 0⟩ ∧
    "[KLEOS] ciao" ≠ "ciao" := by
  decide

/-- Claim C7, amended: when the Kleos pipeline reaches Done with a non-empty
final text, exactly one user/assistant pair is appended to the caller's
conversation history with the original prompt (not the refined master prompt)
as the user turn; the persisted user-turn text, however, is the original
prompt prefixed with the "[KLEOS] " tag rather than the original prompt
itself. -/
theorem C7_amended_kleos_done (ctx : List Message)
    (provider model original_prompt full_content : String) (auto_save : Bool)
    (h : full_content ≠ "") :
    (kleos_save_context ctx provider model original_prompt full_content auto_save).1
      = ctx ++ [⟨"user", original_prompt, none⟩, ⟨"assistant", full_content, none⟩] ∧
    (kleos_save_context ctx provider model original_prompt full_content auto_save).2
      = (if auto_save then
           some ⟨provider, model, "[KLEOS] " ++ original_prompt, full_content, 0⟩
         else none) := by
  constructor <;> simp [kleos_save_context, h]

theorem C7_amended_witness :
    ("ok" : String) ≠ "" ∧
    ((kleos_save_context [] "GOOGLE" "gemini-2.5-flash" "ciao" "ok" true).1
       = [] ++ [⟨"user", "ciao", none⟩, ⟨"assistant", "ok", none⟩] ∧
     (kleos_save_context [] "GOOGLE" "gemini-2.5-flash" "ciao" "ok" true).2
       = (if true then
            some ⟨"GOOGLE", "gemini-2.5-flash", "[KLEOS] " ++ "ciao", "ok", 0⟩
          else none)) :=
  ⟨by decide,
   C7_amended_kleos_done [] "GOOGLE" "gemini-2.5-flash" "ciao" "ok" true (by decide)⟩

/-- Claim C8, counterexample: with the configured maximum at its default
`max_context_messages = 20`, a completed Kleos exchange appends its pair to a
context already holding 40 messages and performs no truncation, leaving 42
messages — more than 2 × 20 — so the bound does not hold after every
completed exchange. -/
theorem C8_counterexample :
    ((kleos_save_context (List.replicate 40 ⟨"user", "x", none⟩) "GOOGLE"
        "gemini-2.5-flash" "p" "r" false).1).length = 42 ∧
    ¬ ((kleos_save_context (List.replicate 40 ⟨"user", "x", none⟩) "GOOGLE"
        "gemini-2.5-flash" "p" "r" false).1).length ≤ 2 * 20 := by
  decide

/-- Claim C8, amended: only the normal send path enforces the bound — after a
completed `_send_to_ai` exchange with a positive configured maximum, the
context equals the most recent `2 * max_context_messages`-message suffix of
the appended sequence (oldest-first eviction) and so holds at most that many
messages; the Kleos save path appends its pair without truncating. -/
theorem C8_amended_context_truncation (ctx : List Message)
    (message full_content : String) (maxm : Nat)
    (hfull : full_content ≠ "") (hmax : 0 < maxm) :
    send_to_ai_update_context ctx message full_content maxm
      = (ctx ++ [(⟨"user", message, none⟩ : Message),
           ⟨"assistant", full_content, none⟩]).drop
          ((ctx.length + 2) - maxm * 2) ∧
    (send_to_ai_update_context ctx message full_content maxm).length ≤ maxm * 2 := by
  have hlen : (ctx ++ [(⟨"user", message, none⟩ : Message),
      ⟨"assistant", full_content, none⟩]).length = ctx.length + 2 := by
    simp
  by_cases hgt : ctx.length + 2 > maxm * 2
  · have hne : ¬ maxm * 2 = 0 := by omega
    constructor
    · simp only [send_to_ai_update_context, hfull, if_true, ne_eq,
        not_false_eq_true, hlen, hgt, hne, if_false]
    · simp only [send_to_ai_update_context, hfull, if_true, ne_eq,
        not_false_eq_true, hlen, hgt, hne, if_false, List.length_drop]
      omega
  · constructor
    · have hz : (ctx.length + 2) - maxm * 2 = 0 := by omega
      simp only [send_to_ai_update_context, hfull, if_true, ne_eq,
        not_false_eq_true, hlen, hgt, if_false, hz, List.drop_zero]
    · simp only [send_to_ai_update_context, hfull, if_true, ne_eq,
        not_false_eq_true, hlen, hgt, if_false]
      omega

theorem C8_amended_witness :
    ("r" : String) ≠ "" ∧ 0 < 1 ∧
    (send_to_ai_update_context
        [⟨"user", "a", none⟩, ⟨"assistant", "b", none⟩] "m" "r" 1
      = ([(⟨"user", "a", none⟩ : Message), ⟨"assistant", "b", none⟩] ++
          [(⟨"user", "m", none⟩ : Message), ⟨"assistant", "r", none⟩]).drop
          ((2 + 2) - 1 * 2) ∧
     (send_to_ai_update_context
        [⟨"user", "a", none⟩, ⟨"assistant", "b", none⟩] "m" "r" 1).length ≤ 1 * 2) :=
  ⟨by decide, by decide,
   C8_amended_context_truncation
     [⟨"user", "a", none⟩, ⟨"assistant", "b", none⟩] "m" "r" 1
     (by decide) (by decide)⟩

/-- Claim C9, counterexample: on a warm provider instance (`self._chat` is
non-None, e.g. after any earlier call) a Gemma call with the non-empty system
prompt "Be brief.", no prior history and no memories produces an outgoing
request whose user-visible content is just the user message "Hi" — the system
prompt is neither prepended there nor placed in the (always-None-for-Gemma)
system-instruction slot: it is silently dropped, which the claim says cannot
happen for a call with a non-empty system prompt and no prior history. -/
theorem C9_counterexample :
    (gemini_build_request ⟨"gemma-3-27b", true, {}⟩ "Hi" [] (some "Be brief.")
        none).system_instruction = none ∧
    (gemini_build_request ⟨"gemma-3-27b", true, {}⟩ "Hi" [] (some "Be brief.")
        none).user_message = "Hi" ∧
    strContains "Hi" "Be brief." = false := by
  decide

/-- Claim C9, amended: for a Gemma model variant (no system-instruction
channel), a call with a non-empty system prompt and no prior history has the
dedicated system-instruction slot empty, and its user-visible content carries
the system prompt prepended (with a blank line) to the optional memory block
and the user message only when the chat session is fresh (`self._chat` is
None); on a warm session with empty history `should_inject_system` is false
and the system prompt is silently dropped from the outgoing request. -/
theorem C9_amended_gemma_system_prompt (st : GeminiState) (message : String)
    (sp : String) (mem : Option String)
    (hg : gemini_is_gemma st.model = true) (hsp : sp ≠ "") :
    (gemini_build_request st message [] (some sp) mem).system_instruction = none ∧
    (gemini_build_request st message [] (some sp) mem).user_message
      = (if st.chat then "" else sp ++ "\n\n") ++
        (if optTruthy mem then gemini_memory_block (mem.getD "") else "") ++
        message := by
  constructor
  · simp [gemini_build_request, hg]
  · cases hchat : st.chat with
    | true =>
      cases mem with
      | none =>
        simp [gemini_build_request, gemini_user_message, gemini_history,
          optTruthy, hg, hsp, hchat]
      | some m =>
        by_cases hm : m = "" <;>
          simp [gemini_build_request, gemini_user_message, gemini_history,
            optTruthy, hg, hsp, hchat, hm]
    | false =>
      cases mem with
      | none =>
        simp [gemini_build_request, gemini_user_message, gemini_history,
          optTruthy, hg, hsp, hchat, String.append_assoc]
      | some m =>
        by_cases hm : m = "" <;>
          simp [gemini_build_request, gemini_user_message, gemini_history,
            optTruthy, hg, hsp, hchat, hm, String.append_assoc]

theorem C9_amended_witness :
    gemini_is_gemma "gemma-3-27b" = true ∧ ("Be brief." : String) ≠ "" ∧
    ((gemini_build_request ⟨"gemma-3-27b", false, {}⟩ "Hi" [] (some "Be brief.")
        none).system_instruction = none ∧
     (gemini_build_request ⟨"gemma-3-27b", false, {}⟩ "Hi" [] (some "Be brief.")
        none).user_message
       = (if false then "" else "Be brief." ++ "\n\n") ++
         (if optTruthy none then gemini_memory_block (Option.getD none "") else "")
         ++ "Hi") :=
  ⟨by decide, by decide,
   C9_amended_gemma_system_prompt ⟨"gemma-3-27b", false, {}⟩ "Hi" "Be brief."
     none (by decide) (by decide)⟩

/-- Claim C10: when `GeminiProvider.send_message` takes the SAFETY
(ContentBlocked) path, it returns a normal `AIResponse` whose usage fields
are the all-zero `UsageStats()` and whose finish reason is "SAFETY", and the
session usage accumulator — `requests_count` included — is exactly what it
was before the call. -/
theorem C10_safety_leaves_accumulator (st : GeminiState) (message : String)
    (context : List Message) (sp mem : Option String) (msg : String)
    (hS : strContains msg "SAFETY" = true)
    (h1 : strContains msg "API_KEY_INVALID" = false)
    (h2 : strContains msg "401" = false)
    (h3 : strContains msg "RATE_LIMIT" = false)
    (h4 : strContains msg "429" = false) :
    (gemini_send_message st message context sp mem (.sendError msg)).2.1
      = .ok ⟨"⚠️ The response was blocked for safety reasons.", st.model,
             { tokens_input := 0, tokens_output := 0, tokens_total := 0,
               requests_count := 0 }, some "SAFETY"⟩ ∧
    (gemini_send_message st message context sp mem (.sendError msg)).2.2.session_usage
      = st.session_usage := by
  constructor <;> simp [gemini_send_message, hS, h1, h2, h3, h4]

theorem C10_witness :
    strContains "finish reason SAFETY" "SAFETY" = true ∧
    strContains "finish reason SAFETY" "API_KEY_INVALID" = false ∧
    strContains "finish reason SAFETY" "401" = false ∧
    strContains "finish reason SAFETY" "RATE_LIMIT" = false ∧
    strContains "finish reason SAFETY" "429" = false ∧
    ((gemini_send_message
        ⟨"gemini-2.5-flash", true, ⟨7, 11, 18, 3, none, none⟩⟩ "hello" []
        (some "sys") none (.sendError "finish reason SAFETY")).2.1
       = .ok ⟨"⚠️ The response was blocked for safety reasons.",
              "gemini-2.5-flash",
              { tokens_input := 0, tokens_output := 0, tokens_total := 0,
                requests_count := 0 }, some "SAFETY"⟩ ∧
     (gemini_send_message
        ⟨"gemini-2.5-flash", true, ⟨7, 11, 18, 3, none, none⟩⟩ "hello" []
        (some "sys") none (.sendError "finish reason SAFETY")).2.2.session_usage
       = ⟨7, 11, 18, 3, none, none⟩) :=
  ⟨by decide, by decide, by decide, by decide, by decide,
   C10_safety_leaves_accumulator
     ⟨"gemini-2.5-flash", true, ⟨7, 11, 18, 3, none, none⟩⟩ "hello" []
     (some "sys") none "finish reason SAFETY"
     (by decide) (by decide) (by decide) (by decide) (by decide)⟩

end Mark
